import Mathlib

/-!
Verification of the SAUCIE data-utility core (saucie_utils.py): the
stateful epoch/batch sampler (class DataSet), its persistence
(DataSet.save / DataSet.load), the CyTOF normalization pipeline
(load_dataset), the mutual-information diagnostic
(activation_mutual_info) and the RNA-seq inverse transform
(rnaseq_inverse_transform).

Modelling conventions:
- numpy arrays of rows become Lean lists; a matrix is a list of rows;
  a row of a data matrix is a value of an abstract type so that
  statements are about row movement, not numerics.
- the process-wide numpy random generator is externalized: every
  operation that consumes a random permutation takes it as an explicit
  argument (the list of indices that np.random.shuffle would produce).
- a failing Python assert is modelled as the None result of an
  Option-returning function.
- machine floats are modelled as rationals where the computation is
  field arithmetic; transcendental library functions (np.arcsinh) are
  abstract scalar maps passed as parameters.
-/

/-- State of a SAUCIE DataSet object: the fields of its Python
instance dictionary.  data, labels, testData, testLabels mirror
the attributes holding the arrays; labeled, shuffle the two boolean flags;
numSamples, indexInEpoch, epochsTrained, batchNumber the sampler
counters; minParam, maxParam, components, meanOffset the normalization
parameters that load_dataset may inject into the instance dictionary. -/
structure DataSet (α β : Type) where
  data : List α
  labels : List β
  testData : List α
  testLabels : List β
  labeled : Bool
  shuffle : Bool
  numSamples : Nat
  indexInEpoch : Nat
  epochsTrained : Nat
  batchNumber : Nat
  minParam : Option (List Rat)
  maxParam : Option (List Rat)
  components : Option (List (List Rat))
  meanOffset : Option (List Rat)
deriving DecidableEq, Repr

/-- Fancy-indexing a list of rows by a list of indices, as numpy
row indexing m[idx] does for an index array. -/
def applyPerm {α : Type} [Inhabited α] (perm : List Nat) (xs : List α) : List α :=
  perm.map fun i => xs.getD i default

/-- Models DataSet.shuffle_data: draws a permutation of range(num_samples)
(here passed in as perm) and applies the SAME index array to the data
rows and, when labeled, to the labels. -/
def DataSet.shuffleData {α β : Type} [Inhabited α] [Inhabited β]
    (perm : List Nat) (ds : DataSet α β) : DataSet α β :=
  { ds with
    data := applyPerm perm ds.data
    labels := if ds.labeled then applyPerm perm ds.labels else ds.labels }

/-- Models DataSet.next_batch: asserts batch_size <= num_samples, then either
slices [start, start+batch_size) (no-wrap case) or, when the batch
would overrun the epoch boundary, increments epochs_trained, zeroes
batch_number, captures the tail rows, reshuffles if the shuffle flag is
set (perm is the permutation the numpy generator would produce),
concatenates tail with the head rows [0, remaining) of the possibly
reshuffled matrix, and sets index_in_epoch to remaining.  Finally
batch_number is incremented.  The labels component of the returned pair
is present exactly when the labeled flag is set. -/
def DataSet.next_batch {α β : Type} [Inhabited α] [Inhabited β]
    (perm : List Nat) (batchSize : Nat) (ds : DataSet α β) :
    Option ((List α × Option (List β)) × DataSet α β) :=
  if batchSize ≤ ds.numSamples then
    let start := ds.indexInEpoch
    if ds.numSamples < start + batchSize then
      let dataTail := ds.data.drop start
      let labelsTail := ds.labels.drop start
      let remaining := batchSize - (ds.numSamples - start)
      let ds1 := if ds.shuffle then ds.shuffleData perm else ds
      let dataBatch := dataTail ++ ds1.data.take remaining
      let labelsBatch := labelsTail ++ ds1.labels.take remaining
      some ((dataBatch, if ds.labeled then some labelsBatch else none),
        { ds1 with
          epochsTrained := ds.epochsTrained + 1
          batchNumber := 0 + 1
          indexInEpoch := remaining })
    else
      some (((ds.data.drop start).take batchSize,
             if ds.labeled then some ((ds.labels.drop start).take batchSize) else none),
        { ds with
          indexInEpoch := start + batchSize
          batchNumber := ds.batchNumber + 1 })
  else
    none

/-- Iterates next_batch k times with a fixed batch size, collecting the
data parts of the returned batches in call order. -/
def DataSet.runBatches {α β : Type} [Inhabited α] [Inhabited β]
    (perm : List Nat) (batchSize : Nat) :
    Nat → DataSet α β → Option (List (List α) × DataSet α β)
  | 0, ds => some ([], ds)
  | k + 1, ds =>
    match ds.next_batch perm batchSize with
    | none => none
    | some ((b, _), ds1) =>
      match DataSet.runBatches perm batchSize k ds1 with
      | none => none
      | some (bs, ds2) => some (b :: bs, ds2)

/-- An unlabeled, unshuffled 10-row dataset whose rows are named by
their initial position, matching the wraparound example of the spec. -/
def ds10 : DataSet Nat Nat :=
  { data := [0, 1, 2, 3, 4, 5, 6, 7, 8, 9]
    labels := []
    testData := []
    testLabels := []
    labeled := false
    shuffle := false
    numSamples := 10
    indexInEpoch := 0
    epochsTrained := 0
    batchNumber := 0
    minParam := none
    maxParam := none
    components := none
    meanOffset := none }

/-- The sampler state of ds10 after two calls of next_batch with batch
size 4 (rows 0-3 and then 4-7 delivered): index 8, batch number 2. -/
def ds10c : DataSet Nat Nat :=
  { ds10 with indexInEpoch := 8, batchNumber := 2 }

example : ds10.next_batch [] 4 =
    some (([0, 1, 2, 3], none), { ds10 with indexInEpoch := 4, batchNumber := 1 }) := by
  decide

example : ({ ds10 with indexInEpoch := 4, batchNumber := 1 } : DataSet Nat Nat).next_batch [] 4 =
    some (([4, 5, 6, 7], none), ds10c) := by decide

example : ds10c.next_batch [] 4 =
    some (([8, 9, 0, 1], none),
      { ds10 with indexInEpoch := 2, epochsTrained := 1, batchNumber := 1 }) := by decide

/-- A one-row unlabeled, unshuffled dataset. -/
def dsOne : DataSet Nat Nat := { ds10 with data := [0], numSamples := 1 }

/-- Claim C1: on a sampler state about to overrun the epoch boundary
(0 < batchSize <= numSamples and indexInEpoch + batchSize > numSamples),
next_batch returns the tail rows [indexInEpoch, numSamples) of the
pre-wrap matrix followed by the head rows [0, remaining) of the possibly
reshuffled matrix, with remaining = batchSize - (numSamples - indexInEpoch);
it increments epochsTrained, resets batchNumber to 0 and then bumps it to 1,
sets indexInEpoch = remaining, and the batch has exactly batchSize rows. -/
theorem DataSet.next_batch_wraparound {α β : Type} [Inhabited α] [Inhabited β]
    (perm : List Nat) (batchSize : Nat) (ds : DataSet α β)
    (hn : ds.numSamples = ds.data.length)
    (hperm : perm.length = ds.numSamples)
    (hpos : 0 < batchSize) (hle : batchSize ≤ ds.numSamples)
    (hidx : ds.indexInEpoch ≤ ds.numSamples)
    (hwrap : ds.numSamples < ds.indexInEpoch + batchSize) :
    ds.next_batch perm batchSize = some
      ((ds.data.drop ds.indexInEpoch ++
          (if ds.shuffle then ds.shuffleData perm else ds).data.take
            (batchSize - (ds.numSamples - ds.indexInEpoch)),
        if ds.labeled then
          some (ds.labels.drop ds.indexInEpoch ++
            (if ds.shuffle then ds.shuffleData perm else ds).labels.take
              (batchSize - (ds.numSamples - ds.indexInEpoch)))
        else none),
       { (if ds.shuffle then ds.shuffleData perm else ds) with
         epochsTrained := ds.epochsTrained + 1
         batchNumber := 1
         indexInEpoch := batchSize - (ds.numSamples - ds.indexInEpoch) }) ∧
    (ds.data.drop ds.indexInEpoch ++
       (if ds.shuffle then ds.shuffleData perm else ds).data.take
         (batchSize - (ds.numSamples - ds.indexInEpoch))).length = batchSize := by
  constructor
  · simp only [DataSet.next_batch, if_pos hle, if_pos hwrap]
  · cases hsh : ds.shuffle
    · simp only [hsh, if_neg Bool.false_ne_true, Bool.false_eq_true, if_false,
        List.length_append, List.length_drop, List.length_take]
      omega
    · simp only [hsh, if_true, DataSet.shuffleData, applyPerm,
        List.length_append, List.length_drop, List.length_take, List.length_map]
      omega

/-- Claim C1 witness: the third batch of size 4 from the initial
10-row unshuffled state wraps, returning rows [8, 9, 0, 1] with
epochsTrained = 1, batchNumber = 1, indexInEpoch = 2. -/
theorem next_batch_wraparound_witness :
    (ds10c.next_batch (List.range 10) 4 = some
      ((ds10c.data.drop ds10c.indexInEpoch ++
          (if ds10c.shuffle then ds10c.shuffleData (List.range 10) else ds10c).data.take
            (4 - (ds10c.numSamples - ds10c.indexInEpoch)),
        if ds10c.labeled then
          some (ds10c.labels.drop ds10c.indexInEpoch ++
            (if ds10c.shuffle then ds10c.shuffleData (List.range 10) else ds10c).labels.take
              (4 - (ds10c.numSamples - ds10c.indexInEpoch)))
        else none),
       { (if ds10c.shuffle then ds10c.shuffleData (List.range 10) else ds10c) with
         epochsTrained := ds10c.epochsTrained + 1
         batchNumber := 1
         indexInEpoch := 4 - (ds10c.numSamples - ds10c.indexInEpoch) }) ∧
     (ds10c.data.drop ds10c.indexInEpoch ++
        (if ds10c.shuffle then ds10c.shuffleData (List.range 10) else ds10c).data.take
          (4 - (ds10c.numSamples - ds10c.indexInEpoch))).length = 4) ∧
    ds10c.next_batch (List.range 10) 4 = some (([8, 9, 0, 1], none),
      { ds10 with indexInEpoch := 2, epochsTrained := 1, batchNumber := 1 }) :=
  ⟨DataSet.next_batch_wraparound (List.range 10) 4 ds10c (by decide) (by decide)
      (by decide) (by decide) (by decide) (by decide),
   by decide⟩

/-- Claim C3 (amended): next_batch succeeds exactly when
batchSize <= numSamples; the Python assert checks only the upper bound,
so batchSize = 0 is accepted. -/
theorem DataSet.next_batch_succeeds_iff {α β : Type} [Inhabited α] [Inhabited β]
    (perm : List Nat) (batchSize : Nat) (ds : DataSet α β) :
    (ds.next_batch perm batchSize).isSome = true ↔ batchSize ≤ ds.numSamples := by
  by_cases h : batchSize ≤ ds.numSamples
  · simp only [DataSet.next_batch, if_pos h]
    refine ⟨fun _ => h, fun _ => ?_⟩
    split <;> rfl
  · simp [DataSet.next_batch, h]

/-- Claim C3 counterexample: a call with batchSize = 0 is not rejected;
on a one-row dataset it succeeds and returns an empty batch, leaving
indexInEpoch unchanged and incrementing batchNumber. -/
theorem next_batch_zero_accepted :
    dsOne.next_batch [] 0 = some (([], none), { dsOne with batchNumber := 1 }) := by
  decide

/-- Claim C10: a successful next_batch call leaves the test matrix, test
labels, labeled flag, shuffle flag, sample count and stored normalization
parameters unchanged; the training data and labels are either untouched or
(only when the shuffle flag is set) replaced by a common fancy-indexing of
the same index list, labels only when the dataset is labeled. -/
theorem DataSet.next_batch_frame {α β : Type} [Inhabited α] [Inhabited β]
    (perm : List Nat) (batchSize : Nat) (ds : DataSet α β)
    (out : List α × Option (List β)) (ds1 : DataSet α β)
    (h : ds.next_batch perm batchSize = some (out, ds1)) :
    ds1.testData = ds.testData ∧ ds1.testLabels = ds.testLabels ∧
    ds1.labeled = ds.labeled ∧ ds1.shuffle = ds.shuffle ∧
    ds1.numSamples = ds.numSamples ∧
    ds1.minParam = ds.minParam ∧ ds1.maxParam = ds.maxParam ∧
    ds1.components = ds.components ∧ ds1.meanOffset = ds.meanOffset ∧
    ((ds1.data = ds.data ∧ ds1.labels = ds.labels) ∨
      (ds.shuffle = true ∧ ds1.data = applyPerm perm ds.data ∧
        ds1.labels = if ds.labeled then applyPerm perm ds.labels else ds.labels)) := by
  unfold DataSet.next_batch at h
  by_cases h1 : batchSize ≤ ds.numSamples
  · rw [if_pos h1] at h
    by_cases h2 : ds.numSamples < ds.indexInEpoch + batchSize
    · rw [if_pos h2] at h
      cases hsh : ds.shuffle
      · simp only [hsh, Bool.false_eq_true, if_false, Option.some.injEq,
          Prod.mk.injEq] at h
        obtain ⟨-, hds⟩ := h
        subst hds
        simp [DataSet.shuffleData]
      · simp only [hsh, if_true, Option.some.injEq, Prod.mk.injEq] at h
        obtain ⟨-, hds⟩ := h
        subst hds
        simp [DataSet.shuffleData, hsh]
    · rw [if_neg h2] at h
      simp only [Option.some.injEq, Prod.mk.injEq] at h
      obtain ⟨-, hds⟩ := h
      subst hds
      simp
  · rw [if_neg h1] at h
    exact absurd h (by simp)

/-- Helper for claim C2: as long as no call overruns the epoch boundary,
k successive next_batch calls deliver the k consecutive slices of the
training matrix and leave epochsTrained and the data untouched. -/
theorem DataSet.runBatches_no_wrap {α β : Type} [Inhabited α] [Inhabited β]
    (perm : List Nat) (batchSize : Nat) (k : Nat) :
    ∀ (ds : DataSet α β),
      ds.numSamples = ds.data.length →
      ds.indexInEpoch + k * batchSize ≤ ds.numSamples →
      ∃ B ds1, DataSet.runBatches perm batchSize k ds = some (B, ds1) ∧
        B.flatten = (ds.data.drop ds.indexInEpoch).take (k * batchSize) ∧
        ds1.epochsTrained = ds.epochsTrained ∧
        ds1.indexInEpoch = ds.indexInEpoch + k * batchSize ∧
        ds1.data = ds.data ∧ ds1.numSamples = ds.numSamples := by
  induction k with
  | zero =>
    intro ds hn hk
    exact ⟨[], ds, rfl, by simp, rfl, by simp, rfl, rfl⟩
  | succ k ih =>
    intro ds hn hk
    rw [Nat.succ_mul] at hk
    have hle : batchSize ≤ ds.numSamples := by omega
    have hnw : ¬ (ds.numSamples < ds.indexInEpoch + batchSize) := by omega
    simp only [DataSet.runBatches, DataSet.next_batch, if_pos hle, if_neg hnw]
    obtain ⟨B, ds2, hrun, hflat, hep, hidx2, hdata, hnum⟩ :=
      ih { ds with indexInEpoch := ds.indexInEpoch + batchSize,
                   batchNumber := ds.batchNumber + 1 }
        (by simpa using hn) (by simp; omega)
    rw [hrun]
    refine ⟨_, ds2, rfl, ?_, hep, ?_, hdata, hnum⟩
    · simp only [List.flatten_cons]
      rw [hflat]
      rw [Nat.succ_mul, Nat.add_comm (k * batchSize) batchSize, List.take_add,
        List.drop_drop]
    · rw [Nat.succ_mul]
      have h2 : ds2.indexInEpoch = ds.indexInEpoch + batchSize + k * batchSize := by
        simpa using hidx2
      omega

/-- Claim C2 (amended): with shuffle disabled and batchSize dividing
numSamples evenly, the numSamples / batchSize calls of one epoch return
batches whose concatenation is exactly the training matrix (every row
exactly once), but epochsTrained is unchanged: the increment only
happens on the first wrapping call of the next epoch. -/
theorem DataSet.epoch_coverage {α β : Type} [Inhabited α] [Inhabited β]
    (perm : List Nat) (batchSize : Nat) (ds : DataSet α β)
    (hsh : ds.shuffle = false)
    (hn : ds.numSamples = ds.data.length)
    (hidx : ds.indexInEpoch = 0)
    (hpos : 0 < batchSize)
    (hdvd : batchSize ∣ ds.numSamples) :
    ∃ B ds1,
      DataSet.runBatches perm batchSize (ds.numSamples / batchSize) ds = some (B, ds1) ∧
      B.flatten = ds.data ∧
      ds1.epochsTrained = ds.epochsTrained := by
  obtain ⟨B, ds1, hrun, hflat, hep, -, -, -⟩ :=
    DataSet.runBatches_no_wrap perm batchSize (ds.numSamples / batchSize) ds hn
      (by rw [hidx, Nat.div_mul_cancel hdvd]; omega)
  refine ⟨B, ds1, hrun, ?_, hep⟩
  rw [hflat, hidx, List.drop_zero, Nat.div_mul_cancel hdvd, hn, List.take_length]

/-- Claim C2 witness: 10 rows, batch size 5, shuffle off: the two calls
of the epoch return all ten rows once and epochsTrained stays 0. -/
theorem epoch_coverage_witness :
    ∃ B ds1,
      DataSet.runBatches [] 5 (ds10.numSamples / 5) ds10 = some (B, ds1) ∧
      B.flatten = ds10.data ∧
      ds1.epochsTrained = ds10.epochsTrained :=
  DataSet.epoch_coverage [] 5 ds10 (by decide) (by decide) (by decide) (by decide)
    (by decide)

/-- Claim C2 counterexample: one row, batch size 1: after the single
call making up the epoch, every row was returned exactly once but
epochsTrained is still 0, not incremented by 1 as the claim states. -/
theorem epoch_coverage_cex :
    DataSet.runBatches [] 1 (1 / 1) dsOne =
      some ([[0]], { dsOne with indexInEpoch := 1, batchNumber := 1 }) ∧
    ({ dsOne with indexInEpoch := 1, batchNumber := 1 } : DataSet Nat Nat).epochsTrained ≠
      dsOne.epochsTrained + 1 := by decide

/-- Claim C4: shuffle_data applies the same index array to the data
rows and to the labels, so the pairing of row i with label i is
preserved: the zipped shuffled dataset is the fancy-indexing of the
zipped original dataset by that one permutation. -/
theorem DataSet.shuffle_data_pairing {α β : Type} [Inhabited α] [Inhabited β]
    (ds : DataSet α β) (perm : List Nat)
    (hlab : ds.labeled = true)
    (hlen : ds.labels.length = ds.data.length)
    (hperm : ∀ i ∈ perm, i < ds.data.length) :
    ((ds.shuffleData perm).data).zip (ds.shuffleData perm).labels =
      applyPerm perm (ds.data.zip ds.labels) := by
  simp only [DataSet.shuffleData, hlab, if_true]
  unfold applyPerm
  rw [List.zip_map']
  apply List.map_congr_left
  intro i hi
  have hid : i < ds.data.length := hperm i hi
  have hil : i < ds.labels.length := by omega
  have hiz : i < (ds.data.zip ds.labels).length := by
    rw [List.length_zip]; omega
  rw [List.getD_eq_getElem _ _ hiz, List.getElem_zip,
    List.getD_eq_getElem _ _ hid, List.getD_eq_getElem _ _ hil]

/-- A small labeled dataset for witnesses: three rows with three labels. -/
def dsL : DataSet Nat Nat :=
  { ds10 with data := [10, 20, 30], labels := [1, 2, 3], labeled := true,
              numSamples := 3 }

/-- Claim C4 witness: the pairing invariant instantiated on a three-row
labeled dataset and the permutation [2, 0, 1]. -/
theorem shuffle_data_pairing_witness :
    ((dsL.shuffleData [2, 0, 1]).data).zip (dsL.shuffleData [2, 0, 1]).labels =
      applyPerm [2, 0, 1] (dsL.data.zip dsL.labels) :=
  DataSet.shuffle_data_pairing dsL [2, 0, 1] (by decide) (by decide) (by decide)

/-- Claim C10 witness: the frame condition instantiated on the first
size-2 batch of the 10-row dataset. -/
theorem next_batch_frame_witness :
    (({ ds10 with indexInEpoch := 2, batchNumber := 1 } : DataSet Nat Nat).testData = ds10.testData ∧
     ({ ds10 with indexInEpoch := 2, batchNumber := 1 } : DataSet Nat Nat).testLabels = ds10.testLabels ∧
     ({ ds10 with indexInEpoch := 2, batchNumber := 1 } : DataSet Nat Nat).labeled = ds10.labeled ∧
     ({ ds10 with indexInEpoch := 2, batchNumber := 1 } : DataSet Nat Nat).shuffle = ds10.shuffle ∧
     ({ ds10 with indexInEpoch := 2, batchNumber := 1 } : DataSet Nat Nat).numSamples = ds10.numSamples ∧
     ({ ds10 with indexInEpoch := 2, batchNumber := 1 } : DataSet Nat Nat).minParam = ds10.minParam ∧
     ({ ds10 with indexInEpoch := 2, batchNumber := 1 } : DataSet Nat Nat).maxParam = ds10.maxParam ∧
     ({ ds10 with indexInEpoch := 2, batchNumber := 1 } : DataSet Nat Nat).components = ds10.components ∧
     ({ ds10 with indexInEpoch := 2, batchNumber := 1 } : DataSet Nat Nat).meanOffset = ds10.meanOffset ∧
     ((({ ds10 with indexInEpoch := 2, batchNumber := 1 } : DataSet Nat Nat).data = ds10.data ∧
       ({ ds10 with indexInEpoch := 2, batchNumber := 1 } : DataSet Nat Nat).labels = ds10.labels) ∨
      (ds10.shuffle = true ∧
       ({ ds10 with indexInEpoch := 2, batchNumber := 1 } : DataSet Nat Nat).data = applyPerm [] ds10.data ∧
       ({ ds10 with indexInEpoch := 2, batchNumber := 1 } : DataSet Nat Nat).labels =
         if ds10.labeled then applyPerm [] ds10.labels else ds10.labels))) :=
  DataSet.next_batch_frame [] 2 ds10 ([0, 1], none)
    { ds10 with indexInEpoch := 2, batchNumber := 1 } (by decide)

/-- The contents of the compressed archive written by DataSet.save: a
verbatim copy of every entry of the instance dictionary. -/
structure Archive (α β : Type) where
  data : List α
  labels : List β
  testData : List α
  testLabels : List β
  labeled : Bool
  shuffle : Bool
  numSamples : Nat
  indexInEpoch : Nat
  epochsTrained : Nat
  batchNumber : Nat
  minParam : Option (List Rat)
  maxParam : Option (List Rat)
  components : Option (List (List Rat))
  meanOffset : Option (List Rat)
deriving DecidableEq, Repr

/-- Models DataSet.save: numpy savez of the whole instance dictionary. -/
def DataSet.save {α β : Type} (ds : DataSet α β) : Archive α β :=
  { data := ds.data, labels := ds.labels, testData := ds.testData
    testLabels := ds.testLabels, labeled := ds.labeled, shuffle := ds.shuffle
    numSamples := ds.numSamples, indexInEpoch := ds.indexInEpoch
    epochsTrained := ds.epochsTrained, batchNumber := ds.batchNumber
    minParam := ds.minParam, maxParam := ds.maxParam
    components := ds.components, meanOffset := ds.meanOffset }

/-- Models DataSet.load: reads the archive and runs the constructor on it.
The constructor asserts the label row count when the labeled flag is
set, copies every archive entry into the instance dictionary
(overwriting the shuffle default), recomputes numSamples from the data,
resets the three sampler counters to zero, and then, because the saved
shuffle flag was restored by the dictionary update, reshuffles the data
(and labels when labeled) with a fresh permutation perm whenever that
flag is set. -/
def DataSet.load {α β : Type} [Inhabited α] [Inhabited β]
    (perm : List Nat) (a : Archive α β) : Option (DataSet α β) :=
  if a.labeled = true ∧ a.data.length ≠ a.labels.length then none
  else
    let ds : DataSet α β :=
      { data := a.data, labels := a.labels, testData := a.testData
        testLabels := a.testLabels, labeled := a.labeled, shuffle := a.shuffle
        numSamples := a.data.length, indexInEpoch := 0, epochsTrained := 0
        batchNumber := 0, minParam := a.minParam, maxParam := a.maxParam
        components := a.components, meanOffset := a.meanOffset }
    some (if ds.shuffle then ds.shuffleData perm else ds)

/-- A two-row shuffle-enabled dataset used to exhibit the load reshuffle. -/
def dsShuf : DataSet Nat Nat :=
  { ds10 with data := [0, 1], numSamples := 2, shuffle := true, testData := [5] }

/-- Claim C5 counterexample: saving a shuffle-enabled dataset and
loading it back reshuffles the training matrix with a fresh
permutation (here the realizable draw [1, 0]), so the loaded rows are
not in the same order as the saved ones. -/
theorem load_save_cex :
    (DataSet.load [1, 0] dsShuf.save).map DataSet.data = some [1, 0] ∧
    ([1, 0] : List Nat) ≠ dsShuf.data := by decide

/-- Claim C5 (amended): for a dataset whose shuffle flag is off,
loading the saved archive reproduces the training matrix, test matrix,
both label vectors and the stored normalization parameters exactly and
in the same row order (the sampler counters are reset to zero); with
the shuffle flag on, the loaded training data and labels are instead a
fresh common permutation of the saved ones. -/
theorem DataSet.load_save_no_shuffle {α β : Type} [Inhabited α] [Inhabited β]
    (perm : List Nat) (ds : DataSet α β)
    (hsh : ds.shuffle = false)
    (hlab : ds.labeled = true → ds.data.length = ds.labels.length) :
    ∃ ds1, DataSet.load perm ds.save = some ds1 ∧
      ds1.data = ds.data ∧ ds1.testData = ds.testData ∧
      ds1.labels = ds.labels ∧ ds1.testLabels = ds.testLabels ∧
      ds1.minParam = ds.minParam ∧ ds1.maxParam = ds.maxParam ∧
      ds1.components = ds.components ∧ ds1.meanOffset = ds.meanOffset := by
  have hguard : ¬ (ds.save.labeled = true ∧
      ds.save.data.length ≠ ds.save.labels.length) := by
    intro h
    exact h.2 (hlab h.1)
  unfold DataSet.load
  rw [if_neg hguard]
  simp only [DataSet.save, hsh, Bool.false_eq_true, if_false]
  exact ⟨_, rfl, rfl, rfl, rfl, rfl, rfl, rfl, rfl, rfl⟩

/-- Claim C5 witness: the no-shuffle round trip instantiated on the
three-row labeled dataset. -/
theorem load_save_no_shuffle_witness :
    ∃ ds1, DataSet.load [0, 1, 2] dsL.save = some ds1 ∧
      ds1.data = dsL.data ∧ ds1.testData = dsL.testData ∧
      ds1.labels = dsL.labels ∧ ds1.testLabels = dsL.testLabels ∧
      ds1.minParam = dsL.minParam ∧ ds1.maxParam = dsL.maxParam ∧
      ds1.components = dsL.components ∧ ds1.meanOffset = dsL.meanOffset :=
  DataSet.load_save_no_shuffle [0, 1, 2] dsL (by decide) (fun _ => by decide)

/-- Dot product of two vectors (numpy dot on 1-D slices). -/
def dotVec (u v : List Rat) : Rat := (List.zipWith (fun a b => a * b) u v).sum

/-- Matrix product (numpy dot): row i of the result is the vector of
dot products of row i of a with the columns of b. -/
def matMul (a b : List (List Rat)) : List (List Rat) :=
  a.map fun row => b.transpose.map fun col => dotVec row col

/-- Models rnaseq_inverse_transform: defaults x to the concatenation of train
and test data, undoes min-max scaling when the _min/_max parameters are
present, multiplies by the PCA components and adds the mean offset when
_components is present - and then returns the DataSet object itself,
discarding the computed reconstruction (the final statement of the
Python function is return data, not return x). -/
def rnaseq_inverse_transform {β : Type} [Inhabited β]
    (data : DataSet (List Rat) β) (x : Option (List (List Rat))) :
    DataSet (List Rat) β :=
  let x0 := match x with
    | none => data.data ++ data.testData
    | some m => m
  let x1 := match data.minParam, data.maxParam with
    | some mn, some mx =>
      x0.map fun row => List.zipWith (fun v pr => v * (pr.2 - pr.1) + pr.1) row (mn.zip mx)
    | _, _ => x0
  let _x2 := match data.components with
    | some comps =>
      (matMul x1 comps).map fun row => List.zipWith (fun a b => a + b) row (data.meanOffset.getD [])
    | none => x1
  data

/-- Claim C9: the claim says the inverse transform returns the
reconstruction x2 = x1 * components + meanOffset; the code instead
returns the DataSet object unchanged on every input, because its final
statement returns the wrong variable (data instead of x) and the whole
reconstruction is dead code.  This theorem evaluates the code: for
every dataset and every optional input the function is the identity on
its first argument. -/
theorem rnaseq_inverse_transform_returns_dataset {β : Type} [Inhabited β]
    (data : DataSet (List Rat) β) (x : Option (List (List Rat))) :
    rnaseq_inverse_transform data x = data := rfl

/-- Columnwise minimum of a matrix (numpy min over axis 0). -/
def colMin : List (List Rat) → List Rat
  | [] => []
  | r :: rs => rs.foldl (fun acc row => List.zipWith min acc row) r

/-- Columnwise maximum of a matrix (numpy max over axis 0). -/
def colMax : List (List Rat) → List Rat
  | [] => []
  | r :: rs => rs.foldl (fun acc row => List.zipWith max acc row) r

/-- sklearn MinMaxScaler fit: records the columnwise data minimum and
maximum of the fitted matrix. -/
def msFit (x : List (List Rat)) : List Rat × List Rat := (colMin x, colMax x)

/-- sklearn MinMaxScaler transform for the default (0,1) feature range:
entrywise (v - min) / (max - min), with the zero-range guard the
library applies (a column whose range is zero is divided by one). -/
def msTransform (p : List Rat × List Rat) (m : List (List Rat)) : List (List Rat) :=
  m.map fun row =>
    List.zipWith (fun v pr => (v - pr.1) / (if pr.2 - pr.1 = 0 then 1 else pr.2 - pr.1))
      row (p.1.zip p.2)

/-- The CyTOF compression step np.arcsinh(m / 5): the scalar arcsinh is
a transcendental library function, modelled as an abstract scalar map
asinh; the division by 5 and the elementwise application are the code
under verification. -/
def arcsinhCompress (asinh : Rat → Rat) (m : List (List Rat)) : List (List Rat) :=
  m.map fun row => row.map fun v => asinh (v / 5)

/-- The matrix the CyTOF branch fits the scaler on: the concatenation
of the compressed train and test matrices. -/
def cytofConcat {β : Type} (asinh : Rat → Rat) (ds : DataSet (List Rat) β) :
    List (List Rat) :=
  arcsinhCompress asinh ds.data ++ arcsinhCompress asinh ds.testData

/-- The CyTOF branch of load_dataset: compresses both matrices with
arcsinh(. / 5), fits a MinMaxScaler on their concatenation, transforms
both matrices with the fitted parameters, and stores the fitted
columnwise min and max in the instance dictionary. -/
def cytofNormalize {β : Type} (asinh : Rat → Rat) (ds : DataSet (List Rat) β) :
    DataSet (List Rat) β :=
  let d1 := arcsinhCompress asinh ds.data
  let t1 := arcsinhCompress asinh ds.testData
  let p := msFit (d1 ++ t1)
  { ds with data := msTransform p d1, testData := msTransform p t1,
            maxParam := some p.2, minParam := some p.1 }

/-- Helper for claim C6: on columns whose fitted min and max differ,
the guarded scaler entry is the plain formula (v - min) / (max - min). -/
theorem zipWith_guard_div (row : List Rat) :
    ∀ (ps : List (Rat × Rat)), (∀ pr ∈ ps, pr.1 ≠ pr.2) →
    List.zipWith (fun v pr => (v - pr.1) / (if pr.2 - pr.1 = 0 then 1 else pr.2 - pr.1))
        row ps =
      List.zipWith (fun v pr => (v - pr.1) / (pr.2 - pr.1)) row ps := by
  induction row with
  | nil => intro ps _; simp
  | cons a as ihr =>
    intro ps h
    cases ps with
    | nil => simp
    | cons p ps' =>
      simp only [List.zipWith_cons_cons]
      have hp : p.1 ≠ p.2 := h p (List.mem_cons_self _ _)
      have hz : ¬ (p.2 - p.1 = 0) := fun hz => hp (sub_eq_zero.mp hz).symm
      rw [if_neg hz, ihr ps' (fun q hq => h q (List.mem_cons_of_mem _ hq))]

/-- Claim C6: the CyTOF normalization applies asinh(x / 5) elementwise
to train and test, fits columnwise min and max on the concatenation of
the two compressed matrices, rescales both matrices entrywise as
(v - min) / (max - min) with those fitted vectors, and stores the
fitted min and max as the normalization parameters of the dataset.
The hypothesis excludes degenerate columns (min = max), where the
library substitutes a denominator of one instead of dividing by zero. -/
theorem cytofNormalize_minmax_formula {β : Type} (asinh : Rat → Rat)
    (ds : DataSet (List Rat) β)
    (hnd : ∀ pr ∈ (colMin (cytofConcat asinh ds)).zip (colMax (cytofConcat asinh ds)),
      pr.1 ≠ pr.2) :
    (cytofNormalize asinh ds).minParam = some (colMin (cytofConcat asinh ds)) ∧
    (cytofNormalize asinh ds).maxParam = some (colMax (cytofConcat asinh ds)) ∧
    (cytofNormalize asinh ds).data =
      (arcsinhCompress asinh ds.data).map (fun row =>
        List.zipWith (fun v pr => (v - pr.1) / (pr.2 - pr.1)) row
          ((colMin (cytofConcat asinh ds)).zip (colMax (cytofConcat asinh ds)))) ∧
    (cytofNormalize asinh ds).testData =
      (arcsinhCompress asinh ds.testData).map (fun row =>
        List.zipWith (fun v pr => (v - pr.1) / (pr.2 - pr.1)) row
          ((colMin (cytofConcat asinh ds)).zip (colMax (cytofConcat asinh ds)))) := by
  refine ⟨rfl, rfl, ?_, ?_⟩
  · show msTransform (msFit (cytofConcat asinh ds)) (arcsinhCompress asinh ds.data) = _
    unfold msTransform msFit
    apply List.map_congr_left
    intro row _
    exact zipWith_guard_div row _ hnd
  · show msTransform (msFit (cytofConcat asinh ds)) (arcsinhCompress asinh ds.testData) = _
    unfold msTransform msFit
    apply List.map_congr_left
    intro row _
    exact zipWith_guard_div row _ hnd

/-- A small one-column CyTOF-style dataset: two train rows, one test
row, no labels. -/
def dsC : DataSet (List Rat) Nat :=
  { data := [[0], [2]], labels := [], testData := [[4]], testLabels := []
    labeled := false, shuffle := false, numSamples := 2, indexInEpoch := 0
    epochsTrained := 0, batchNumber := 0, minParam := none, maxParam := none
    components := none, meanOffset := none }

/-- Claim C6 witness: the normalization formula instantiated on the
one-column dataset with the identity as the abstract scalar compression
(fitted min 0 and max 4/5 are distinct, so the hypothesis holds). -/
theorem cytofNormalize_minmax_formula_witness :
    (cytofNormalize id dsC).minParam = some (colMin (cytofConcat id dsC)) ∧
    (cytofNormalize id dsC).maxParam = some (colMax (cytofConcat id dsC)) ∧
    (cytofNormalize id dsC).data =
      (arcsinhCompress id dsC.data).map (fun row =>
        List.zipWith (fun v pr => (v - pr.1) / (pr.2 - pr.1)) row
          ((colMin (cytofConcat id dsC)).zip (colMax (cytofConcat id dsC)))) ∧
    (cytofNormalize id dsC).testData =
      (arcsinhCompress id dsC.testData).map (fun row =>
        List.zipWith (fun v pr => (v - pr.1) / (pr.2 - pr.1)) row
          ((colMin (cytofConcat id dsC)).zip (colMax (cytofConcat id dsC)))) :=
  cytofNormalize_minmax_formula id dsC
    (by norm_num [cytofConcat, arcsinhCompress, dsC, colMin, colMax])

/-- Models activation_mutual_info: the SAUCIE mutual-information diagnostic.
The numeric kernels it calls are external library routines and are
modelled as abstract function parameters: pdist is sklearn
pairwise_distances (returning the full n-by-n distance matrix), hist2d
is np.histogram2d (returning the 2-D histogram as a contingency
table), miC is sklearn mutual_info_score with the contingency keyword
(the two zero label arrays the code passes are ignored by the library
in that mode), km is the label component of sklearn k_means, miL is
mutual_info_score on two label vectors, and sq is np.sqrt.  The code
under verification is the glue: with no cluster count it flattens both
distance matrices row-major, truncates each to its first n * n - 1
entries where n = len(x), defaults the bin count to sqrt(n / 5) when
none is supplied, and scores the 2-D histogram; with a cluster count k
it scores two k_means labelings that are both computed from x. -/
def activation_mutual_info
    (pdist : List (List Rat) → List (List Rat))
    (hist2d : List Rat → List Rat → Rat → List (List Nat))
    (miC : List (List Nat) → Rat)
    (km : List (List Rat) → Nat → List Nat)
    (miL : List Nat → List Nat → Rat)
    (sq : Rat → Rat)
    (x y : List (List Rat)) (k : Option Nat) (bins : Option Rat) : Rat :=
  let n := x.length
  match k with
  | none =>
    let xDist := (pdist x).flatten.take (n * n - 1)
    let yDist := (pdist y).flatten.take (n * n - 1)
    let b := match bins with
      | none => sq ((n : Rat) / 5)
      | some b => b
    miC (hist2d xDist yDist b)
  | some kk => miL (km x kk) (km x kk)

/-- Helper for claim C7: the total length of a matrix whose rows all
have length n. -/
theorem sum_map_length_const {γ : Type} (L : List (List γ)) (n : Nat)
    (h : ∀ r ∈ L, r.length = n) : (L.map List.length).sum = L.length * n := by
  induction L with
  | nil => simp
  | cons r rs ih =>
    simp only [List.map_cons, List.sum_cons, List.length_cons]
    rw [h r (List.mem_cons_self _ _), ih (fun q hq => h q (List.mem_cons_of_mem _ hq))]
    ring

/-- Claim C7: the distance method computes the pairwise-distance matrix
of x and of y, flattens each and keeps exactly the first n * n - 1
entries (n = number of rows of x), uses a bin count of sqrt(n / 5) when
none is supplied and the supplied count otherwise, and returns the
mutual information of the 2-D histogram of the two distance sequences
taken as a contingency table. -/
theorem activation_mutual_info_dist_method
    (pdist : List (List Rat) → List (List Rat))
    (hist2d : List Rat → List Rat → Rat → List (List Nat))
    (miC : List (List Nat) → Rat)
    (km : List (List Rat) → Nat → List Nat)
    (miL : List Nat → List Nat → Rat)
    (sq : Rat → Rat)
    (x y : List (List Rat)) (b : Rat)
    (hlen : (pdist x).length = x.length)
    (hrow : ∀ r ∈ pdist x, r.length = x.length) :
    activation_mutual_info pdist hist2d miC km miL sq x y none none =
      miC (hist2d ((pdist x).flatten.take (x.length * x.length - 1))
                  ((pdist y).flatten.take (x.length * x.length - 1))
                  (sq ((x.length : Rat) / 5))) ∧
    activation_mutual_info pdist hist2d miC km miL sq x y none (some b) =
      miC (hist2d ((pdist x).flatten.take (x.length * x.length - 1))
                  ((pdist y).flatten.take (x.length * x.length - 1)) b) ∧
    ((pdist x).flatten.take (x.length * x.length - 1)).length =
      x.length * x.length - 1 := by
  refine ⟨rfl, rfl, ?_⟩
  rw [List.length_take, List.length_flatten, sum_map_length_const (pdist x) x.length hrow,
    hlen]
  omega

/-- A concrete stand-in for the pairwise-distance kernel: the n-by-n
zero matrix. -/
def pdZero (m : List (List Rat)) : List (List Rat) := m.map fun _ => m.map fun _ => 0

/-- A concrete stand-in for the histogram kernel: one bin with one count. -/
def histOne (_xs _ys : List Rat) (_b : Rat) : List (List Nat) := [[1]]

/-- A concrete stand-in for the contingency-table scorer. -/
def miZero (_t : List (List Nat)) : Rat := 0

/-- A concrete stand-in for the clustering kernel. -/
def kmZero (_m : List (List Rat)) (_k : Nat) : List Nat := []

/-- A concrete stand-in for the label scorer. -/
def miLZero (_a _b : List Nat) : Rat := 0

/-- Claim C7 witness: the distance-method decomposition instantiated on
a two-row input with concrete kernel stand-ins. -/
theorem activation_mutual_info_dist_method_witness :
    activation_mutual_info pdZero histOne miZero kmZero miLZero id
        [[1], [2]] [[1], [2]] none none =
      miZero (histOne ((pdZero [[1], [2]]).flatten.take (2 * 2 - 1))
                      ((pdZero [[1], [2]]).flatten.take (2 * 2 - 1))
                      (id ((2 : Rat) / 5))) ∧
    activation_mutual_info pdZero histOne miZero kmZero miLZero id
        [[1], [2]] [[1], [2]] none (some 3) =
      miZero (histOne ((pdZero [[1], [2]]).flatten.take (2 * 2 - 1))
                      ((pdZero [[1], [2]]).flatten.take (2 * 2 - 1)) 3) ∧
    ((pdZero [[1], [2]]).flatten.take (2 * 2 - 1)).length = 2 * 2 - 1 :=
  activation_mutual_info_dist_method pdZero histOne miZero kmZero miLZero id
    [[1], [2]] [[1], [2]] 3 (by decide) (by decide)

/-- Claim C8: with a cluster count supplied, both k_means labelings are
computed from x, so the second argument y has no influence at all on
the result: the estimate is the same for any two replacement arguments
y1 and y2 (and any supplied bin counts), under the same clustering
kernel, hence under any fixed random generator. -/
theorem activation_mutual_info_cluster_ignores_y
    (pdist : List (List Rat) → List (List Rat))
    (hist2d : List Rat → List Rat → Rat → List (List Nat))
    (miC : List (List Nat) → Rat)
    (km : List (List Rat) → Nat → List Nat)
    (miL : List Nat → List Nat → Rat)
    (sq : Rat → Rat)
    (x y1 y2 : List (List Rat)) (k : Nat) (b1 b2 : Option Rat) :
    activation_mutual_info pdist hist2d miC km miL sq x y1 (some k) b1 =
      activation_mutual_info pdist hist2d miC km miL sq x y2 (some k) b2 := rfl
